import Mathlib

/-!
Shallow embedding of the ColorDash game-update core.

The repository has two source files, each containing two revisions:
`src/components/Game.js` (the per-frame game loop, obstacle kinematics,
AABB collision, scoring / level / game-over transitions) and the app
shell (high-score load and persist around `handleGameOver`).

JS numbers are modelled as rationals (`ℚ`); the screen dimensions
`SCREEN_WIDTH` / `SCREEN_HEIGHT` are device-dependent runtime values and
are passed as parameters.  Randomness (`Math.random`) and the host timer
are external inputs; per-tick state updates are modelled as pure
functions on an explicit state record.  Presentation-only side effects
(sound, haptics, particle rendering, screen shake) do not touch the
game state modelled here and are omitted.
-/

/-- PLAYER_SIZE constant from Game.js. -/
def PLAYER_SIZE : ℚ := 50

/-- OBSTACLE_WIDTH constant from Game.js. -/
def OBSTACLE_WIDTH : ℚ := 60

/-- COLORS.length: the palette has four entries. -/
def numColors : ℕ := 4

/-- Points per level (later revision of Game.js). -/
def levelThreshold : ℕ := 10

/-- An axis-aligned rectangle, as built inline in the game loop
(playerRect and obstacleRect literals). -/
structure Rect where
  x : ℚ
  y : ℚ
  width : ℚ
  height : ℚ
deriving Repr, DecidableEq

/-- The collision test of the game loop, identical in both revisions:
collision is the negation of the four strict separation tests. -/
def collision (p o : Rect) : Bool :=
  !(decide (p.x > o.x + o.width) ||
    decide (p.x + p.width < o.x) ||
    decide (p.y > o.y + o.height) ||
    decide (p.y + p.height < o.y))

/-- The player rectangle built each tick from the shared player position. -/
def playerRect (px py : ℚ) : Rect :=
  { x := px, y := py, width := PLAYER_SIZE, height := PLAYER_SIZE }

/-- C3: the collision predicate computed by the game loop holds iff the two
closed rectangles overlap on both axes, i.e. neither rectangle lies strictly
beyond the other horizontally or vertically. -/
theorem collision_iff_closed_overlap (p o : Rect) :
    collision p o = true ↔
      (p.x ≤ o.x + o.width ∧ o.x ≤ p.x + p.width ∧
       p.y ≤ o.y + o.height ∧ o.y ≤ p.y + p.height) := by
  unfold collision
  simp only [Bool.not_eq_true', Bool.or_eq_false_iff, decide_eq_false_iff_not, not_lt]
  constructor
  · rintro ⟨⟨⟨h1, h2⟩, h3⟩, h4⟩
    exact ⟨h1, h2, h3, h4⟩
  · rintro ⟨h1, h2, h3, h4⟩
    exact ⟨⟨⟨h1, h2⟩, h3⟩, h4⟩

/-- Truncation toward zero on rationals, as JS number-to-integer truncation. -/
def truncQ (q : ℚ) : ℤ :=
  if 0 ≤ q then ⌊q⌋ else ⌈q⌉

/-- The JS remainder operator a % b on numbers: the remainder of truncated
division, carrying the sign of the dividend. -/
def jsRem (a b : ℚ) : ℚ :=
  a - b * (truncQ (a / b) : ℚ)

/-- An obstacle record as produced by generateObstacle (later revision);
the earlier revision uses the subset without vx / angle / rotateSpeed. -/
structure Obstacle where
  id : ℚ
  x : ℚ
  y : ℚ
  colorIndex : ℕ
  width : ℚ
  height : ℚ
  vx : ℚ
  angle : ℚ
  rotateSpeed : ℚ
deriving Repr, DecidableEq

/-- The rectangle of an obstacle, as built in the game-loop filter. -/
def obstacleRect (o : Obstacle) : Rect :=
  { x := o.x, y := o.y, width := o.width, height := o.height }

/-- Embeds generateObstacle (later revision).  The Math.random draws are
passed as explicit arguments: colorIndex is the drawn palette index, xr the
drawn horizontal fraction, vxSign / vxMag and rsSign / rsMag the drawn sign
and magnitude of the horizontal velocity and rotation speed, angle0 the drawn
initial angle, idv the Date.now() + Math.random() identifier. -/
def generateObstacle (level : ℕ) (size SCREEN_WIDTH : ℚ)
    (colorIndex : ℕ) (xr : ℚ) (vxSign : Bool) (vxMag : ℚ)
    (angle0 : ℚ) (rsSign : Bool) (rsMag : ℚ) (idv : ℚ) : Obstacle :=
  { id := idv
    x := xr * (SCREEN_WIDTH - size)
    y := -size
    colorIndex := colorIndex
    width := size
    height := size
    vx := if 3 ≤ level then (if vxSign then 1 else -1) * (1 + vxMag) else 0
    angle := if 2 ≤ level then angle0 else 0
    rotateSpeed := if 2 ≤ level then (0.8 + rsMag) * (if rsSign then -1 else 1) else 0 }

/-- The per-obstacle kinematics of the later revision's game loop: vertical
advance by the current speed, horizontal movement with edge bounce and clamp
for level 3 and up, rotation for level 2 and up. -/
def moveObstacle (level : ℕ) (speed SCREEN_WIDTH : ℚ) (obs : Obstacle) : Obstacle :=
  let newY := obs.y + speed
  let p : ℚ × ℚ :=
    if 3 ≤ level ∧ obs.vx ≠ 0 then
      let nx := obs.x + obs.vx
      if nx ≤ 0 ∨ SCREEN_WIDTH ≤ nx + obs.width then
        (max 0 (min (SCREEN_WIDTH - obs.width) nx), -obs.vx)
      else
        (nx, obs.vx)
    else
      (obs.x, obs.vx)
  let newAngle :=
    if 2 ≤ level ∧ obs.rotateSpeed ≠ 0 then jsRem (obs.angle + obs.rotateSpeed) 360
    else obs.angle
  { obs with y := newY, x := p.1, vx := p.2, angle := newAngle }

/-- C5: at level 3 and up, an obstacle with nonzero horizontal velocity whose
x is within [0, SCREEN_WIDTH - width] before the tick stays within
[0, SCREEN_WIDTH - width] after the tick, and whenever the unclamped
horizontal move reaches or crosses a screen edge the horizontal velocity is
negated. -/
theorem moveObstacle_bounce_invariant (level : ℕ) (speed SW : ℚ) (obs : Obstacle)
    (hl : 3 ≤ level) (hvx : obs.vx ≠ 0)
    (h0 : 0 ≤ obs.x) (h1 : obs.x ≤ SW - obs.width) :
    (0 ≤ (moveObstacle level speed SW obs).x ∧
     (moveObstacle level speed SW obs).x ≤ SW - obs.width) ∧
    ((obs.x + obs.vx ≤ 0 ∨ SW ≤ obs.x + obs.vx + obs.width) →
      (moveObstacle level speed SW obs).vx = -obs.vx) := by
  have hw : (0 : ℚ) ≤ SW - obs.width := h0.trans h1
  simp only [moveObstacle]
  rw [if_pos ⟨hl, hvx⟩]
  by_cases hb : obs.x + obs.vx ≤ 0 ∨ SW ≤ obs.x + obs.vx + obs.width
  · rw [if_pos hb]
    exact ⟨⟨le_max_left _ _, max_le hw (min_le_left _ _)⟩, fun _ => rfl⟩
  · rw [if_neg hb]
    push_neg at hb
    refine ⟨⟨le_of_lt hb.1,
      le_of_lt (show obs.x + obs.vx < SW - obs.width by linarith [hb.2])⟩, fun h => ?_⟩
    rcases h with h | h <;> [exact absurd h (not_le.mpr hb.1); exact absurd h (not_le.mpr (by linarith [hb.2]))]

/-- Witness for moveObstacle_bounce_invariant at a concrete obstacle: level 3,
screen width 400, obstacle at x = 390 of width 60 is out of the premise, use
x = 100, width 60, vx = -150 so the unclamped move crosses the left edge. -/
theorem moveObstacle_bounce_invariant_witness :
    (0 ≤ (moveObstacle 3 5 400
        { id := 1, x := 100, y := 20, colorIndex := 0, width := 60, height := 60,
          vx := -150, angle := 0, rotateSpeed := 0 }).x ∧
     (moveObstacle 3 5 400
        { id := 1, x := 100, y := 20, colorIndex := 0, width := 60, height := 60,
          vx := -150, angle := 0, rotateSpeed := 0 }).x ≤ 400 - 60) ∧
    (moveObstacle 3 5 400
        { id := 1, x := 100, y := 20, colorIndex := 0, width := 60, height := 60,
          vx := -150, angle := 0, rotateSpeed := 0 }).vx = -(-150) := by
  have h := moveObstacle_bounce_invariant 3 5 400
    { id := 1, x := 100, y := 20, colorIndex := 0, width := 60, height := 60,
      vx := -150, angle := 0, rotateSpeed := 0 }
    (by norm_num) (by norm_num) (by norm_num) (by norm_num)
  exact ⟨h.1, h.2 (by norm_num)⟩

/-- The game-state fields of the later revision touched by one tick of the
game loop: score ref, pause and overlay flags, game-over flag, the deferred
game-over score, and whether the two intervals (game loop and spawner) are
still scheduled. -/
structure LoopState where
  score : ℕ
  isPaused : Bool
  showLevelComplete : Bool
  isGameOver : Bool
  pendingGameOverScore : Option ℕ
  gameLoopActive : Bool
  spawnActive : Bool
deriving Repr, DecidableEq

/-- One evaluation of the later revision's filter callback on a (moved)
obstacle: on a color-matching collision the score is incremented and the
level-progression check may pause the game; on a mismatching collision both
intervals are cleared, the game-over flag is set and the score is recorded
for the deferred parent notification; in both collision cases the obstacle
is dropped, otherwise it is kept iff it is still on screen. -/
def filterStep (px py : ℚ) (playerColor : ℕ) (SCREEN_HEIGHT : ℚ)
    (s : LoopState) (obs : Obstacle) : LoopState × Bool :=
  if collision (playerRect px py) (obstacleRect obs) then
    if playerColor = obs.colorIndex then
      let score1 := s.score + 1
      let s1 := { s with score := score1 }
      let s2 :=
        if 0 < score1 ∧ score1 % levelThreshold = 0 then
          { s1 with isPaused := true, showLevelComplete := true }
        else s1
      (s2, false)
    else
      ({ s with gameLoopActive := false, spawnActive := false,
                isGameOver := true, pendingGameOverScore := some s.score }, false)
  else
    (s, decide (obs.y < SCREEN_HEIGHT))

/-- The later revision's filter pass over the moved obstacle list, threading
the mutable state left to right as JS Array.filter does. -/
def runFilter (px py : ℚ) (pc : ℕ) (SH : ℚ) :
    LoopState → List Obstacle → LoopState × List Obstacle
  | s, [] => (s, [])
  | s, o :: rest =>
    let r := filterStep px py pc SH s o
    let t := runFilter px py pc SH r.1 rest
    (t.1, if r.2 then o :: t.2 else t.2)

/-- The later revision's speed ramp run after the filter pass. -/
def rampSpeed (score : ℕ) (speed : ℚ) : ℚ :=
  if 0 < score ∧ score % 5 = 0 then min 20 (5 + (score / 4 : ℕ)) else speed

/-- One tick of the later revision's game loop on the obstacle list: frozen
while paused, otherwise kinematics map followed by the collision filter and
the speed ramp.  Returns the new state, the new obstacle list and the new
obstacle speed. -/
def gameTick (level : ℕ) (speed px py : ℚ) (pc : ℕ) (SW SH : ℚ)
    (s : LoopState) (obstacles : List Obstacle) :
    LoopState × List Obstacle × ℚ :=
  if s.isPaused then (s, obstacles, speed)
  else
    let moved := obstacles.map (moveObstacle level speed SW)
    let r := runFilter px py pc SH s moved
    (r.1, r.2, rampSpeed r.1.score speed)

/-- The deferred game-over effect of the later revision: when the game-over
flag is set and a pending score exists, the parent callback receives that
score and the pending slot is cleared so the call is not repeated. -/
def gameOverEffect (isGameOver : Bool) (pending : Option ℕ) (calls : List ℕ) :
    Option ℕ × List ℕ :=
  match isGameOver, pending with
  | true, some sc => (none, calls ++ [sc])
  | _, p => (p, calls)

/-- changeColor, identical in both revisions: advance the palette index
modulo COLORS.length. -/
def changeColor (c : ℕ) : ℕ :=
  (c + 1) % numColors

/-- The pan-gesture onUpdate handler, identical in both revisions: the
candidate x centers the disc under the touch; the position moves only when
the candidate is inside the screen, and y is never written to a new value. -/
def panUpdate (SW : ℚ) (pos : ℚ × ℚ) (absoluteX : ℚ) : ℚ × ℚ :=
  let newX := absoluteX - PLAYER_SIZE / 2
  if 0 ≤ newX ∧ newX ≤ SW - PLAYER_SIZE then (newX, pos.2) else pos

/-- An obstacle record as produced by the earlier revision's
generateObstacle: no horizontal velocity or rotation fields. -/
structure ObstacleOld where
  id : ℚ
  x : ℚ
  y : ℚ
  colorIndex : ℕ
  width : ℚ
  height : ℚ
deriving Repr, DecidableEq

/-- Forgetting the later revision's extra kinematic fields. -/
def toOld (o : Obstacle) : ObstacleOld :=
  { id := o.id, x := o.x, y := o.y, colorIndex := o.colorIndex,
    width := o.width, height := o.height }

/-- The rectangle of an earlier-revision obstacle. -/
def obstacleRectOld (o : ObstacleOld) : Rect :=
  { x := o.x, y := o.y, width := o.width, height := o.height }

/-- The earlier revision's kinematics: obstacles only fall. -/
def moveObstacleOld (speed : ℚ) (o : ObstacleOld) : ObstacleOld :=
  { o with y := o.y + speed }

/-- The game-state fields of the earlier revision touched by one tick:
score, game-over flag, the two interval handles, and the synchronous
onGameOver calls made so far (with their argument). -/
structure LoopStateOld where
  score : ℕ
  isGameOver : Bool
  gameLoopActive : Bool
  spawnActive : Bool
  onGameOverCalls : List ℕ
deriving Repr, DecidableEq

/-- One evaluation of the earlier revision's filter callback: a matching
collision scores and drops the obstacle; a mismatching collision clears both
intervals, sets game over and synchronously calls onGameOver with the
current score; otherwise the obstacle is kept iff still on screen. -/
def filterStepOld (px py : ℚ) (pc : ℕ) (SH : ℚ)
    (s : LoopStateOld) (o : ObstacleOld) : LoopStateOld × Bool :=
  if collision (playerRect px py) (obstacleRectOld o) then
    if pc = o.colorIndex then
      ({ s with score := s.score + 1 }, false)
    else
      ({ s with gameLoopActive := false, spawnActive := false, isGameOver := true,
                onGameOverCalls := s.onGameOverCalls ++ [s.score] }, false)
  else
    (s, decide (o.y < SH))

/-- The earlier revision's filter pass, threading state left to right. -/
def runFilterOld (px py : ℚ) (pc : ℕ) (SH : ℚ) :
    LoopStateOld → List ObstacleOld → LoopStateOld × List ObstacleOld
  | s, [] => (s, [])
  | s, o :: rest =>
    let r := filterStepOld px py pc SH s o
    let t := runFilterOld px py pc SH r.1 rest
    (t.1, if r.2 then o :: t.2 else t.2)

/-- The earlier revision's speed ramp. -/
def rampSpeedOld (score : ℕ) (speed : ℚ) : ℚ :=
  if 0 < score ∧ score % 5 = 0 then min 15 (5 + (score / 5 : ℕ)) else speed

/-- One tick of the earlier revision's game loop: fall, filter, ramp. -/
def gameTickOld (speed px py : ℚ) (pc : ℕ) (SH : ℚ)
    (s : LoopStateOld) (obstacles : List ObstacleOld) :
    LoopStateOld × List ObstacleOld × ℚ :=
  let moved := obstacles.map (moveObstacleOld speed)
  let r := runFilterOld px py pc SH s moved
  (r.1, r.2, rampSpeedOld r.1.score speed)

/-- Outcome of the external JSON.parse call on the raw stored string,
as discriminated by the load effect: the parse may throw, yield a value
whose typeof is not number, yield NaN, or yield a number. -/
inductive ParseOutcome where
  | throws
  | nonNumber
  | nanNumber
  | number (q : ℚ)
deriving Repr, DecidableEq

/-- Result of the external AsyncStorage.getItem call followed by parsing:
the read itself may throw (Except.error), return null (none), or return a
raw string whose parse outcome is given. -/
abbrev ReadResult := Except Unit (Option ParseOutcome)

/-- True on the failure modes the claim speaks of: the read throws, the
parse throws, or the parsed value is not a (non-NaN) number. -/
def readNotNumeric : ReadResult → Bool
  | .error _ => true
  | .ok (some .throws) => true
  | .ok (some .nonNumber) => true
  | .ok (some .nanNumber) => true
  | _ => false

/-- The App's high-score load effect: the try/catch around getItem and
JSON.parse swallows every failure (logging a warning), and setHighScore runs
only when the parsed value is a number that is not NaN; in every other case
the state keeps its current (initial) value. -/
def loadHighScore (initial : ℚ) (read : ReadResult) : ℚ :=
  match read with
  | .error _ => initial
  | .ok none => initial
  | .ok (some .throws) => initial
  | .ok (some .nonNumber) => initial
  | .ok (some .nanNumber) => initial
  | .ok (some (.number q)) => q

/-- The in-memory high-score update of handleGameOver, identical in both
revisions of the App shell: the high score changes only when the reported
score strictly exceeds it. -/
def handleGameOver (highScore : ℚ) (score : ℕ) : ℚ :=
  if highScore < (score : ℚ) then (score : ℚ) else highScore

/-- handleGameOver together with the persistence attempt: the in-memory
update happens unconditionally on the winning branch; the async setItem may
fail, which only produces a warning.  Returns the new in-memory high score
and whether a persist warning was logged. -/
def handleGameOverPersist (highScore : ℚ) (score : ℕ) (persistFails : Bool) :
    ℚ × Bool :=
  if highScore < (score : ℚ) then ((score : ℚ), persistFails) else (highScore, false)

/-- The keep / remove decision of the later revision's filter, which depends
only on the obstacle and the player position, never on the threaded state. -/
def keepDecision (px py SH : ℚ) (o : Obstacle) : Bool :=
  !collision (playerRect px py) (obstacleRect o) && decide (o.y < SH)

theorem filterStep_snd (px py : ℚ) (pc : ℕ) (SH : ℚ) (s : LoopState) (o : Obstacle) :
    (filterStep px py pc SH s o).2 = keepDecision px py SH o := by
  unfold filterStep keepDecision
  split_ifs with h1 h2 <;> simp [h1]

theorem mem_runFilter (px py : ℚ) (pc : ℕ) (SH : ℚ) (o : Obstacle) :
    ∀ (s : LoopState) (l : List Obstacle),
      o ∈ (runFilter px py pc SH s l).2 → o ∈ l ∧ keepDecision px py SH o = true := by
  intro s l
  induction l generalizing s with
  | nil => intro h; simp [runFilter] at h
  | cons a rest ih =>
    intro h
    simp only [runFilter] at h
    by_cases hk : (filterStep px py pc SH s a).2 = true
    · rw [if_pos hk] at h
      rcases List.mem_cons.mp h with rfl | h2
      · exact ⟨List.mem_cons_self _ _, (filterStep_snd px py pc SH s o) ▸ hk⟩
      · have := ih _ h2
        exact ⟨List.mem_cons_of_mem _ this.1, this.2⟩
    · rw [if_neg hk] at h
      have := ih _ h
      exact ⟨List.mem_cons_of_mem _ this.1, this.2⟩

/-- C1: on a color-matching contact the filter increments the score by
exactly one and removes the obstacle: its keep flag is false and it does not
occur in the output of the filter pass over any obstacle list. -/
theorem filterStep_match_scores_and_removes
    (px py SH : ℚ) (pc : ℕ) (s : LoopState) (obs : Obstacle) (l : List Obstacle)
    (hc : collision (playerRect px py) (obstacleRect obs) = true)
    (hm : pc = obs.colorIndex) :
    (filterStep px py pc SH s obs).1.score = s.score + 1 ∧
    (filterStep px py pc SH s obs).2 = false ∧
    obs ∉ (runFilter px py pc SH s l).2 := by
  refine ⟨?_, ?_, ?_⟩
  · unfold filterStep
    rw [if_pos hc, if_pos hm]
    dsimp only
    split_ifs <;> rfl
  · unfold filterStep
    rw [if_pos hc, if_pos hm]
  · intro hmem
    have h := (mem_runFilter px py pc SH obs s l hmem).2
    unfold keepDecision at h
    rw [hc] at h
    simp at h

/-- Witness for filterStep_match_scores_and_removes: a concrete matching
contact at player position (100, 500) with an overlapping obstacle of the
player's color. -/
theorem filterStep_match_scores_and_removes_witness :
    (filterStep 100 500 2 800
      { score := 0, isPaused := false, showLevelComplete := false,
        isGameOver := false, pendingGameOverScore := none,
        gameLoopActive := true, spawnActive := true }
      { id := 7, x := 110, y := 480, colorIndex := 2, width := 60, height := 60,
        vx := 0, angle := 0, rotateSpeed := 0 }).1.score = 0 + 1 ∧
    (filterStep 100 500 2 800
      { score := 0, isPaused := false, showLevelComplete := false,
        isGameOver := false, pendingGameOverScore := none,
        gameLoopActive := true, spawnActive := true }
      { id := 7, x := 110, y := 480, colorIndex := 2, width := 60, height := 60,
        vx := 0, angle := 0, rotateSpeed := 0 }).2 = false ∧
    { id := 7, x := 110, y := 480, colorIndex := 2, width := 60, height := 60,
      vx := 0, angle := 0, rotateSpeed := 0 } ∉
      (runFilter 100 500 2 800
        { score := 0, isPaused := false, showLevelComplete := false,
          isGameOver := false, pendingGameOverScore := none,
          gameLoopActive := true, spawnActive := true }
        [{ id := 7, x := 110, y := 480, colorIndex := 2, width := 60, height := 60,
           vx := 0, angle := 0, rotateSpeed := 0 }]).2 :=
  filterStep_match_scores_and_removes 100 500 800 2
    { score := 0, isPaused := false, showLevelComplete := false,
      isGameOver := false, pendingGameOverScore := none,
      gameLoopActive := true, spawnActive := true }
    { id := 7, x := 110, y := 480, colorIndex := 2, width := 60, height := 60,
      vx := 0, angle := 0, rotateSpeed := 0 }
    [{ id := 7, x := 110, y := 480, colorIndex := 2, width := 60, height := 60,
       vx := 0, angle := 0, rotateSpeed := 0 }]
    (by norm_num [collision, playerRect, obstacleRect, PLAYER_SIZE]) rfl

/-- C2: on a color-mismatching contact the filter sets the game-over flag,
clears both intervals, records the current score for the deferred parent
notification and removes the obstacle; the deferred effect then calls the
parent exactly once with that score: the first run of the effect appends the
score to the call list and clears the pending slot, and a second run of the
effect changes nothing. -/
theorem filterStep_mismatch_game_over
    (px py SH : ℚ) (pc : ℕ) (s : LoopState) (obs : Obstacle)
    (hc : collision (playerRect px py) (obstacleRect obs) = true)
    (hm : pc ≠ obs.colorIndex) :
    (filterStep px py pc SH s obs).1.isGameOver = true ∧
    (filterStep px py pc SH s obs).1.gameLoopActive = false ∧
    (filterStep px py pc SH s obs).1.spawnActive = false ∧
    (filterStep px py pc SH s obs).1.pendingGameOverScore = some s.score ∧
    (filterStep px py pc SH s obs).2 = false ∧
    (∀ calls : List ℕ,
      gameOverEffect (filterStep px py pc SH s obs).1.isGameOver
          (filterStep px py pc SH s obs).1.pendingGameOverScore calls
        = (none, calls ++ [s.score])) ∧
    (∀ calls : List ℕ,
      gameOverEffect (filterStep px py pc SH s obs).1.isGameOver
          (gameOverEffect (filterStep px py pc SH s obs).1.isGameOver
            (filterStep px py pc SH s obs).1.pendingGameOverScore calls).1
          (gameOverEffect (filterStep px py pc SH s obs).1.isGameOver
            (filterStep px py pc SH s obs).1.pendingGameOverScore calls).2
        = (none, calls ++ [s.score])) := by
  unfold filterStep
  rw [if_pos hc, if_neg hm]
  exact ⟨rfl, rfl, rfl, rfl, rfl, fun calls => rfl, fun calls => rfl⟩

/-- Witness for filterStep_mismatch_game_over: a concrete mismatching
contact (player color 1, obstacle color 2) at score 3. -/
theorem filterStep_mismatch_game_over_witness :
    (filterStep 100 500 1 800
      { score := 3, isPaused := false, showLevelComplete := false,
        isGameOver := false, pendingGameOverScore := none,
        gameLoopActive := true, spawnActive := true }
      { id := 7, x := 110, y := 480, colorIndex := 2, width := 60, height := 60,
        vx := 0, angle := 0, rotateSpeed := 0 }).1.isGameOver = true ∧
    (filterStep 100 500 1 800
      { score := 3, isPaused := false, showLevelComplete := false,
        isGameOver := false, pendingGameOverScore := none,
        gameLoopActive := true, spawnActive := true }
      { id := 7, x := 110, y := 480, colorIndex := 2, width := 60, height := 60,
        vx := 0, angle := 0, rotateSpeed := 0 }).1.pendingGameOverScore = some 3 ∧
    gameOverEffect true (some 3) [] = (none, [3]) ∧
    gameOverEffect true none [3] = (none, [3]) := by
  have h := filterStep_mismatch_game_over 100 500 800 1
    { score := 3, isPaused := false, showLevelComplete := false,
      isGameOver := false, pendingGameOverScore := none,
      gameLoopActive := true, spawnActive := true }
    { id := 7, x := 110, y := 480, colorIndex := 2, width := 60, height := 60,
      vx := 0, angle := 0, rotateSpeed := 0 }
    (by norm_num [collision, playerRect, obstacleRect, PLAYER_SIZE]) (by decide)
  exact ⟨h.1, h.2.2.2.1, rfl, rfl⟩

/-- C4: when a scoring event brings the score to a positive multiple of the
level threshold of 10, the filter sets the paused flag and shows the
level-complete overlay; and a tick of the game loop run while paused returns
the obstacle list unchanged. -/
theorem levelComplete_pauses
    (px py SH : ℚ) (pc : ℕ) (s : LoopState) (obs : Obstacle)
    (hc : collision (playerRect px py) (obstacleRect obs) = true)
    (hm : pc = obs.colorIndex)
    (hmul : (s.score + 1) % levelThreshold = 0) :
    (filterStep px py pc SH s obs).1.isPaused = true ∧
    (filterStep px py pc SH s obs).1.showLevelComplete = true ∧
    ∀ (level : ℕ) (speed SW : ℚ) (s2 : LoopState) (l : List Obstacle),
      s2.isPaused = true →
        (gameTick level speed px py pc SW SH s2 l).2.1 = l := by
  refine ⟨?_, ?_, ?_⟩
  · unfold filterStep
    rw [if_pos hc, if_pos hm]
    dsimp only
    rw [if_pos ⟨Nat.succ_pos _, hmul⟩]
  · unfold filterStep
    rw [if_pos hc, if_pos hm]
    dsimp only
    rw [if_pos ⟨Nat.succ_pos _, hmul⟩]
  · intro level speed SW s2 l hp
    unfold gameTick
    rw [if_pos hp]

/-- Witness for levelComplete_pauses: scoring the tenth point on a concrete
matching contact pauses the game, and a paused tick leaves a one-element
obstacle list unchanged. -/
theorem levelComplete_pauses_witness :
    (filterStep 100 500 2 800
      { score := 9, isPaused := false, showLevelComplete := false,
        isGameOver := false, pendingGameOverScore := none,
        gameLoopActive := true, spawnActive := true }
      { id := 7, x := 110, y := 480, colorIndex := 2, width := 60, height := 60,
        vx := 0, angle := 0, rotateSpeed := 0 }).1.isPaused = true ∧
    (gameTick 1 5 100 500 2 400 800
      { score := 10, isPaused := true, showLevelComplete := true,
        isGameOver := false, pendingGameOverScore := none,
        gameLoopActive := true, spawnActive := true }
      [{ id := 9, x := 0, y := 0, colorIndex := 3, width := 60, height := 60,
         vx := 0, angle := 0, rotateSpeed := 0 }]).2.1
      = [{ id := 9, x := 0, y := 0, colorIndex := 3, width := 60, height := 60,
           vx := 0, angle := 0, rotateSpeed := 0 }] := by
  have h := levelComplete_pauses 100 500 800 2
    { score := 9, isPaused := false, showLevelComplete := false,
      isGameOver := false, pendingGameOverScore := none,
      gameLoopActive := true, spawnActive := true }
    { id := 7, x := 110, y := 480, colorIndex := 2, width := 60, height := 60,
      vx := 0, angle := 0, rotateSpeed := 0 }
    (by norm_num [collision, playerRect, obstacleRect, PLAYER_SIZE]) rfl (by decide)
  exact ⟨h.1, h.2.2 1 5 400
    { score := 10, isPaused := true, showLevelComplete := true,
      isGameOver := false, pendingGameOverScore := none,
      gameLoopActive := true, spawnActive := true }
    [{ id := 9, x := 0, y := 0, colorIndex := 3, width := 60, height := 60,
       vx := 0, angle := 0, rotateSpeed := 0 }] rfl⟩

/-- C6: changeColor maps index c to (c + 1) mod 4, its result is always one
of the four palette indices, and four applications return any palette index
to itself. -/
theorem changeColor_cycles (c : ℕ) (hc : c < 4) :
    changeColor c = (c + 1) % 4 ∧
    changeColor c < 4 ∧
    changeColor (changeColor (changeColor (changeColor c))) = c := by
  refine ⟨rfl, Nat.mod_lt _ (by decide), ?_⟩
  interval_cases c <;> decide

/-- Witness for changeColor_cycles at palette index 2. -/
theorem changeColor_cycles_witness :
    changeColor 2 = (2 + 1) % 4 ∧
    changeColor 2 < 4 ∧
    changeColor (changeColor (changeColor (changeColor 2))) = 2 :=
  changeColor_cycles 2 (by decide)

/-- C7: a pan-gesture update never changes the player's y coordinate; it
sets x to the gesture-derived coordinate exactly when that coordinate lies
within [0, SCREEN_WIDTH - PLAYER_SIZE], and otherwise leaves the whole
position unchanged. -/
theorem panUpdate_horizontal_only (SW : ℚ) (pos : ℚ × ℚ) (ax : ℚ) :
    (panUpdate SW pos ax).2 = pos.2 ∧
    ((0 ≤ ax - PLAYER_SIZE / 2 ∧ ax - PLAYER_SIZE / 2 ≤ SW - PLAYER_SIZE) →
      (panUpdate SW pos ax).1 = ax - PLAYER_SIZE / 2) ∧
    (¬(0 ≤ ax - PLAYER_SIZE / 2 ∧ ax - PLAYER_SIZE / 2 ≤ SW - PLAYER_SIZE) →
      panUpdate SW pos ax = pos) := by
  unfold panUpdate
  by_cases h : 0 ≤ ax - PLAYER_SIZE / 2 ∧ ax - PLAYER_SIZE / 2 ≤ SW - PLAYER_SIZE
  · rw [if_pos h]
    exact ⟨rfl, fun _ => rfl, fun hn => absurd h hn⟩
  · rw [if_neg h]
    exact ⟨rfl, fun hp => absurd hp h, fun _ => rfl⟩

/-- Witness for panUpdate_horizontal_only: an in-range gesture at x = 100 on
a 400-wide screen moves the disc to 75 and keeps y = 700. -/
theorem panUpdate_horizontal_only_witness :
    (panUpdate 400 (30, 700) 100).1 = 100 - PLAYER_SIZE / 2 ∧
    (panUpdate 400 (30, 700) 100).2 = 700 := by
  have h := panUpdate_horizontal_only 400 (30, 700) 100
  exact ⟨h.2.1 (by norm_num [PLAYER_SIZE]), h.1⟩

/-- C8: every failing or non-numeric read leaves the loaded high score at
its initial value 0 (the load completes, returning a value, instead of
propagating the failure), and a failing persist never impedes the in-memory
high-score update: the first component of handleGameOverPersist agrees with
handleGameOver whatever the persist outcome. -/
theorem highScore_failures_swallowed (read : ReadResult)
    (hr : readNotNumeric read = true) :
    loadHighScore 0 read = 0 ∧
    ∀ (h : ℚ) (sc : ℕ) (persistFails : Bool),
      (handleGameOverPersist h sc persistFails).1 = handleGameOver h sc := by
  constructor
  · match read, hr with
    | .error _, _ => rfl
    | .ok (some .throws), _ => rfl
    | .ok (some .nonNumber), _ => rfl
    | .ok (some .nanNumber), _ => rfl
  · intro h sc persistFails
    unfold handleGameOverPersist handleGameOver
    split_ifs <;> rfl

/-- Witness for highScore_failures_swallowed: a read whose getItem call
throws loads 0, and a failing persist still applies the update 0 to 5. -/
theorem highScore_failures_swallowed_witness :
    loadHighScore 0 (Except.error ()) = 0 ∧
    (handleGameOverPersist 0 5 true).1 = handleGameOver 0 5 := by
  have h := highScore_failures_swallowed (Except.error ()) rfl
  exact ⟨h.1, h.2 0 5 true⟩

/-- C9: handleGameOver never decreases the high score; it changes it exactly
when the reported score strictly exceeds it, and then to the reported score;
hence the high score is non-decreasing across any sequence of game-over
notifications. -/
theorem handleGameOver_monotone (h : ℚ) (sc : ℕ) :
    h ≤ handleGameOver h sc ∧
    (h < (sc : ℚ) → handleGameOver h sc = (sc : ℚ)) ∧
    (¬h < (sc : ℚ) → handleGameOver h sc = h) ∧
    ∀ l : List ℕ, h ≤ List.foldl handleGameOver h l := by
  refine ⟨?_, ?_, ?_, ?_⟩
  · unfold handleGameOver
    split_ifs with hlt
    · exact le_of_lt hlt
    · exact le_refl h
  · intro hlt
    unfold handleGameOver
    rw [if_pos hlt]
  · intro hge
    unfold handleGameOver
    rw [if_neg hge]
  · intro l
    induction l generalizing h with
    | nil => exact le_refl h
    | cons a rest ih =>
      refine le_trans ?_ (ih (handleGameOver h a))
      unfold handleGameOver
      split_ifs with hlt
      · exact le_of_lt hlt
      · exact le_refl h

/-- Witness for handleGameOver_monotone: high score 4 against reported
score 7, and the sequence of reports 7, 2, 9. -/
theorem handleGameOver_monotone_witness :
    (4 : ℚ) ≤ handleGameOver 4 7 ∧
    handleGameOver 4 7 = ((7 : ℕ) : ℚ) ∧
    (4 : ℚ) ≤ List.foldl handleGameOver 4 [7, 2, 9] := by
  have h := handleGameOver_monotone 4 7
  exact ⟨h.1, h.2.1 (by norm_num), h.2.2.2 [7, 2, 9]⟩

/-- The keep / remove decision of the earlier revision's filter, likewise
independent of the threaded state. -/
def keepDecisionOld (px py SH : ℚ) (o : ObstacleOld) : Bool :=
  !collision (playerRect px py) (obstacleRectOld o) && decide (o.y < SH)

theorem filterStepOld_snd (px py : ℚ) (pc : ℕ) (SH : ℚ)
    (s : LoopStateOld) (o : ObstacleOld) :
    (filterStepOld px py pc SH s o).2 = keepDecisionOld px py SH o := by
  unfold filterStepOld keepDecisionOld
  split_ifs with h1 h2 <;> simp [h1]

/-- C10: on an obstacle without horizontal velocity and without rotation the
later revision's tick agrees with the earlier revision's: the position
update advances y by the current speed and leaves x unchanged on both sides,
and the two filters make the same keep / remove decision, which holds iff
there is no collision and the moved obstacle is still above the bottom of
the screen. -/
theorem tick_refines_old
    (level : ℕ) (speed SW SH px py : ℚ) (pc : ℕ)
    (s : LoopState) (t : LoopStateOld) (obs : Obstacle)
    (hvx : obs.vx = 0) (hrs : obs.rotateSpeed = 0) :
    (moveObstacle level speed SW obs).x = (moveObstacleOld speed (toOld obs)).x ∧
    (moveObstacle level speed SW obs).y = (moveObstacleOld speed (toOld obs)).y ∧
    (moveObstacle level speed SW obs).y = obs.y + speed ∧
    (moveObstacle level speed SW obs).x = obs.x ∧
    (filterStep px py pc SH s (moveObstacle level speed SW obs)).2
      = (filterStepOld px py pc SH t (moveObstacleOld speed (toOld obs))).2 ∧
    (filterStepOld px py pc SH t (moveObstacleOld speed (toOld obs))).2
      = (!collision (playerRect px py)
            (obstacleRectOld (moveObstacleOld speed (toOld obs))) &&
          decide ((moveObstacleOld speed (toOld obs)).y < SH)) := by
  have hmx : (moveObstacle level speed SW obs).x = obs.x := by
    simp only [moveObstacle]
    rw [if_neg (by simp [hvx])]
  have hmy : (moveObstacle level speed SW obs).y = obs.y + speed := by
    simp only [moveObstacle]
  have hmw : (moveObstacle level speed SW obs).width = obs.width := by
    simp only [moveObstacle]
  have hmh : (moveObstacle level speed SW obs).height = obs.height := by
    simp only [moveObstacle]
  refine ⟨?_, ?_, hmy, hmx, ?_, filterStepOld_snd px py pc SH t _⟩
  · rw [hmx]; rfl
  · rw [hmy]; rfl
  · rw [filterStep_snd, filterStepOld_snd]
    unfold keepDecision keepDecisionOld obstacleRect obstacleRectOld
      moveObstacleOld toOld
    rw [hmx, hmy, hmw, hmh]

/-- Witness for tick_refines_old: a concrete vx = 0, rotateSpeed = 0
obstacle at (100, 480) falling at speed 5 on a 400 by 800 screen, against a
player at (100, 500) of color 1 while the obstacle has color 1. -/
theorem tick_refines_old_witness :
    (moveObstacle 3 5 400
      { id := 7, x := 100, y := 480, colorIndex := 1, width := 60, height := 60,
        vx := 0, angle := 0, rotateSpeed := 0 }).y = 480 + 5 ∧
    (moveObstacle 3 5 400
      { id := 7, x := 100, y := 480, colorIndex := 1, width := 60, height := 60,
        vx := 0, angle := 0, rotateSpeed := 0 }).x = 100 ∧
    (filterStep 100 500 1 800
      { score := 0, isPaused := false, showLevelComplete := false,
        isGameOver := false, pendingGameOverScore := none,
        gameLoopActive := true, spawnActive := true }
      (moveObstacle 3 5 400
        { id := 7, x := 100, y := 480, colorIndex := 1, width := 60, height := 60,
          vx := 0, angle := 0, rotateSpeed := 0 })).2
      = (filterStepOld 100 500 1 800
          { score := 0, isGameOver := false, gameLoopActive := true,
            spawnActive := true, onGameOverCalls := [] }
          (moveObstacleOld 5 (toOld
            { id := 7, x := 100, y := 480, colorIndex := 1, width := 60, height := 60,
              vx := 0, angle := 0, rotateSpeed := 0 }))).2 := by
  have h := tick_refines_old 3 5 400 800 100 500 1
    { score := 0, isPaused := false, showLevelComplete := false,
      isGameOver := false, pendingGameOverScore := none,
      gameLoopActive := true, spawnActive := true }
    { score := 0, isGameOver := false, gameLoopActive := true,
      spawnActive := true, onGameOverCalls := [] }
    { id := 7, x := 100, y := 480, colorIndex := 1, width := 60, height := 60,
      vx := 0, angle := 0, rotateSpeed := 0 }
    rfl rfl
  exact ⟨h.2.2.1, h.2.2.2.1, h.2.2.2.2.1⟩
